import Mathlib

/-!
Verification development for the ServerThing system UI shell
(src/public/shell/shell.js, the resolution-independent runtime).

The shell runtime is shallowly embedded below: each Lean definition mirrors
one function of the source file (the doc comment of every definition names
the source symbol and lines it embeds).  JavaScript numbers that can become
NaN are modelled by an explicit sum type; JavaScript undefined values are
modelled with Option; DOM side effects that later code observes (CSS
classes, rendered grid cells, the iframe container children) are carried as
explicit state fields; messages posted across the iframe boundary and other
externally visible actions are collected in an event trace.
-/

namespace STShell

/-- Focus zones of the shell (field focusZone of ShellRuntime,
source line 209: statusbar, grid, app). -/
inductive Zone
| statusbar
| grid
| app
deriving DecidableEq, Repr

/-- A JavaScript number used as the grid highlight index
(ShellRuntime.focusedAppIndex).  The source only ever stores a
nonnegative integer in this field, except that a modulo by zero
(empty grid) yields NaN, which then propagates. -/
inductive GridIndex
| idx (n : Nat)
| nan
deriving DecidableEq, Repr

/-- One step of dial-right in the grid zone, source line 468:
focusedAppIndex = (focusedAppIndex + 1) % enabledApps.length.
In JavaScript, x % 0 is NaN and NaN propagates through arithmetic. -/
def gridRight (i : GridIndex) (len : Nat) : GridIndex :=
  match i, len with
  | .idx n, (l+1) => .idx ((n + 1) % (l + 1))
  | .idx _, 0 => .nan
  | .nan, _ => .nan

/-- One step of dial-left in the grid zone, source line 469:
focusedAppIndex = (focusedAppIndex - 1 + enabledApps.length) % enabledApps.length.
For a nonnegative integer index and positive length this equals
(n + len - 1) % len in natural-number arithmetic. -/
def gridLeft (i : GridIndex) (len : Nat) : GridIndex :=
  match i, len with
  | .idx n, (l+1) => .idx ((n + (l + 1) - 1) % (l + 1))
  | .idx _, 0 => .nan
  | .nan, _ => .nan

/-- The horizontal-move dispatch of the grid branch of
ShellRuntime.handleHardwareInput, source lines 466-472. -/
def gridMove (dir : String) (i : GridIndex) (len : Nat) : GridIndex :=
  if dir = "right" then gridRight i len
  else if dir = "left" then gridLeft i len
  else i

/-- The clamp performed by ShellRuntime.renderAppGrid, source lines 675-678:
if (focusedAppIndex >= sortedApps.length && sortedApps.length > 0)
  focusedAppIndex = Math.max(0, sortedApps.length - 1).
In JavaScript NaN >= n is false, so a NaN index is left unchanged. -/
def clampIdx (i : GridIndex) (len : Nat) : GridIndex :=
  match i with
  | .idx n => if len ≤ n ∧ 0 < len then .idx (len - 1) else .idx n
  | .nan => .nan

/-- The index denotes a valid position of a grid with len cells. -/
def inGridRange : GridIndex → Nat → Prop
  | .idx n, len => n < len
  | .nan, _ => False

theorem gridRight_inRange {i : GridIndex} {len : Nat} (hlen : 0 < len)
    (h : inGridRange i len) : inGridRange (gridRight i len) len := by
  cases i with
  | idx n =>
      cases len with
      | zero => exact absurd hlen (by simp)
      | succ l => exact Nat.mod_lt _ (Nat.succ_pos l)
  | nan => exact absurd h (by simp [inGridRange])

theorem gridLeft_inRange {i : GridIndex} {len : Nat} (hlen : 0 < len)
    (h : inGridRange i len) : inGridRange (gridLeft i len) len := by
  cases i with
  | idx n =>
      cases len with
      | zero => exact absurd hlen (by simp)
      | succ l => exact Nat.mod_lt _ (Nat.succ_pos l)
  | nan => exact absurd h (by simp [inGridRange])

theorem gridMove_inRange {d : String} {i : GridIndex} {len : Nat}
    (hlen : 0 < len) (h : inGridRange i len) :
    inGridRange (gridMove d i len) len := by
  unfold gridMove
  split
  · exact gridRight_inRange hlen h
  · split
    · exact gridLeft_inRange hlen h
    · exact h

theorem foldl_gridMove_inRange (dirs : List String) {i : GridIndex}
    {len : Nat} (hlen : 0 < len) (h : inGridRange i len) :
    inGridRange (dirs.foldl (fun j d => gridMove d j len) i) len := by
  induction dirs generalizing i with
  | nil => exact h
  | cons d rest ih => exact ih (gridMove_inRange hlen h)

/-- JavaScript truthiness of a possibly-undefined boolean
(used for this.currentApp.atRoot: undefined is falsy). -/
def truthy : Option Bool → Bool
  | some b => b
  | none => false

/-- The embedded iframe as the shell observes it: its src attribute,
whether contentWindow is present (null once the element is detached),
whether contentDocument is reachable (cross-origin access throws),
whether its document has been cleared by teardown, and whether the
onload and onerror properties currently hold a handler. -/
structure Frame where
  src : String
  hasWindow : Bool
  docAccess : Bool
  docCleared : Bool
  onloadSet : Bool
  onerrorSet : Bool
deriving DecidableEq, Repr

/-- Field currentApp of ShellRuntime (source line 204):
id and iframe are null when no application runs; atRoot holds a
JavaScript value that the iframe message handler can set to undefined. -/
structure CurrentApp where
  id : Option String
  iframe : Option Frame
  atRoot : Option Bool
deriving DecidableEq, Repr

/-- One entry of this.apps as pushed by the server: only id and the
enabled flag take part in the launcher logic. -/
structure AppEntry where
  id : String
  enabled : Bool
deriving DecidableEq, Repr

/-- Input kinds of shared/protocol.js: InputType.BUTTON, DIAL, TOUCH. -/
inductive InpKind
| dial
| button
| touch
deriving DecidableEq, Repr

/-- A normalized hardware input as handleHardwareInput receives it. -/
structure HwInput where
  kind : InpKind
  value : String
deriving DecidableEq, Repr

/-- Message kinds the shell posts into the application iframe. -/
inductive OutMsg
| hardwareEvent (kind : InpKind) (value : String)
| zoneFocus (active : Bool)
| dimAppFocus
| cmdBack
| themeReady
| themeUpdate
| uiActionAck (elementId : Option String)
deriving DecidableEq, Repr

/-- Externally visible actions of one processing step, in program order.
Each constructor marks a concrete code point of shell.js:
teardownFrame and containerCleared the DOM operations of
teardownCurrentApp, frameCreated the appendChild in launchApp,
post and postThrew the contentWindow.postMessage call in postMessageToApp
(postThrew marks the TypeError when contentWindow is null),
shortPress and longPressFired the two console.log branches of the
press-duration detector, returnedHome entry into returnToHomeGrid,
dialAccepted passage of the 25 ms dial throttle, buttonSeen entry into
the button section that is reached without any throttle, and
recoveryTriggered the console.warn of recoverFocus. -/
inductive Ev
| teardownFrame (f : Frame)
| containerCleared
| frameCreated (id : String)
| post (m : OutMsg)
| postThrew
| shortPress
| longPressFired (deadline : Int)
| returnedHome
| dialAccepted (t : Int)
| buttonSeen (value : String)
| recoveryTriggered
deriving DecidableEq, Repr

/-- The whole mutable state of ShellRuntime that the claims touch,
with the DOM facts later code reads back (CSS classes, rendered cells,
container children) carried explicitly. -/
structure ShellState where
  apps : List AppEntry
  configOrder : List String
  focusZone : Zone
  focusedAppIndex : GridIndex
  statusBarFocusIndex : Nat
  currentApp : CurrentApp
  interactionMode : String
  lastDialTime : Int
  backTimer : Option Int
  synthUpTimer : Option Int
  isLongPress : Bool
  loadingVisible : Bool
  homeActive : Bool
  appActive : Bool
  navHidden : Bool
  navFocused : Bool
  navMuted : Bool
  navAtRootClass : Bool
  navIcon : String
  gridHasFocusedCell : Bool
  gridLen : Nat
  container : List Frame
deriving DecidableEq, Repr

/-- ShellRuntime.postMessageToApp, source lines 718-722: the guard checks
only that the iframe handle is non-null; it then dereferences contentWindow
unconditionally, so a detached frame (contentWindow null) raises a
TypeError.  Returns the emitted trace and whether the call threw. -/
def postEvs (cur : CurrentApp) (m : OutMsg) : List Ev × Bool :=
  match cur.iframe with
  | none => ([], false)
  | some f => if f.hasWindow then ([.post m], false) else ([.postThrew], true)

/-- ConfigManager.syncOrder, source lines 84-92: prune ids no longer
enabled, then append enabled ids not yet in the order. -/
def syncOrder (order : List String) (enabledIds : List String) : List String :=
  enabledIds.foldl (fun acc id => if id ∈ acc then acc else acc ++ [id])
    (order.filter (fun id => id ∈ enabledIds))

/-- The sorted app list renderAppGrid derives (source lines 667-673):
enabled apps reordered by the synced persisted order; the object map
built by Object.fromEntries keeps the last entry for a duplicated id. -/
def sortedAppsOf (apps : List AppEntry) (order : List String) :
    List AppEntry × List String :=
  let enabled := apps.filter (fun a => a.enabled)
  let enabledIds := enabled.map (fun a => a.id)
  let ordered := syncOrder order enabledIds
  (ordered.filterMap (fun id => (enabled.filter (fun a => a.id = id)).getLast?),
   ordered)

/-- Whether the rendered grid contains a cell with the focused class:
renderAppGrid marks cell index i focused iff i === focusedAppIndex,
and cells exist for indices below the sorted length. -/
def cellFocusedFlag (i : GridIndex) (len : Nat) : Bool :=
  match i with
  | .idx n => decide (n < len)
  | .nan => false

/-- ShellRuntime.renderAppGrid, source lines 666-716 (the state-visible
part): resync the persisted order, clamp the highlight index, and rewrite
the grid cells, the focused one being the cell at focusedAppIndex. -/
def renderAppGrid (s : ShellState) : ShellState :=
  let p := sortedAppsOf s.apps s.configOrder
  let i := clampIdx s.focusedAppIndex p.1.length
  { s with configOrder := p.2, focusedAppIndex := i,
           gridLen := p.1.length,
           gridHasFocusedCell := cellFocusedFlag i p.1.length }

/-- ShellRuntime.updateNavIcon, source lines 757-760. -/
def updateNavIcon (s : ShellState) (atRoot : Bool) : ShellState :=
  { s with navIcon := if atRoot then "apps" else "arrow_back_ios_new",
           navAtRootClass := atRoot }

/-- ShellRuntime.applyZoneFocus, source lines 502-523.  Returns the new
state, the posted-message trace, and whether an uncaught postMessage
TypeError escaped. -/
def applyZoneFocus (s : ShellState) : ShellState × List Ev × Bool :=
  let s1 := { s with navFocused := false, navMuted := false,
                     gridHasFocusedCell := false }
  let s2 :=
    match s1.focusZone with
    | .statusbar =>
        if s1.statusBarFocusIndex = 0 ∧ ¬ s1.navHidden then
          { s1 with navFocused := true }
        else s1
    | .grid => renderAppGrid s1
    | .app => s1
  if s2.focusZone = .app then
    let p := postEvs s2.currentApp (.zoneFocus true)
    (s2, p.1, p.2)
  else if s2.currentApp.id.isSome then
    let p := postEvs s2.currentApp .dimAppFocus
    (s2, p.1, p.2)
  else (s2, [], false)

/-- The per-frame part of ShellRuntime.teardownCurrentApp, source lines
649-662: best-effort clearing of the embedded document (the try block,
a cross-origin access failure is swallowed), then onload and onerror are
nulled and the frame is pointed at about:blank. -/
def teardownFrame (f : Frame) : Frame :=
  { f with docCleared := f.docCleared || (f.hasWindow && f.docAccess),
           onloadSet := false, onerrorSet := false, src := "about:blank" }

/-- ShellRuntime.teardownCurrentApp, source lines 648-664.  The container
is emptied in every case; when a frame exists it is cleaned first.  The
currentApp.iframe reference still points at the cleaned frame afterwards,
exactly as in the source, where the caller resets currentApp. -/
def teardownCurrentApp (s : ShellState) : ShellState × List Ev :=
  match s.currentApp.iframe with
  | some f =>
      let f2 := teardownFrame f
      ({ s with currentApp := { s.currentApp with iframe := some f2 },
                container := [] },
       [.teardownFrame f2, .containerCleared])
  | none => ({ s with container := [] }, [.containerCleared])

/-- The fresh iframe created by launchApp, source lines 562-568: attached
and same-origin, with an onload handler and no onerror handler. -/
def launchFrame (appId : String) : Frame :=
  { src := "/apps/" ++ appId ++ "/index.html",
    hasWindow := true, docAccess := true, docCleared := false,
    onloadSet := true, onerrorSet := false }

/-- ShellRuntime.launchApp, source lines 557-582: teardown of any previous
session first, then show the loading indicator, create a fresh iframe with
only an onload handler (no onerror handler is ever installed), clear the
container again, install the frame, switch the active surface, reveal the
nav button, set the focus zone to the application and apply it. -/
def launchApp (s : ShellState) (appId : String) : ShellState × List Ev :=
  let t := teardownCurrentApp s
  let s2 := { t.1 with loadingVisible := true }
  let fr : Frame := launchFrame appId
  let s3 := { s2 with
      container := [fr],
      currentApp := { id := some appId, iframe := some fr, atRoot := some true },
      homeActive := false, appActive := true, navHidden := false,
      focusZone := .app }
  let z := applyZoneFocus s3
  if z.2.2 then (z.1, t.2 ++ [.containerCleared, .frameCreated appId] ++ z.2.1)
  else
    (updateNavIcon z.1 true,
     t.2 ++ [.containerCleared, .frameCreated appId] ++ z.2.1)

/-- ShellRuntime.returnToHomeGrid, source lines 634-645: teardown, reset
the session record, swap the active surface back to the home screen, hide
and unfocus the nav button, set the zone to the grid and re-render it. -/
def returnToHomeGrid (s : ShellState) : ShellState × List Ev :=
  let t := teardownCurrentApp s
  let s2 := { t.1 with
      currentApp := { id := none, iframe := none, atRoot := some true },
      appActive := false, homeActive := true,
      navHidden := true, navAtRootClass := false,
      navFocused := false, navMuted := false,
      focusZone := .grid }
  (renderAppGrid s2, .returnedHome :: t.2)

/-- ShellRuntime.recoverFocus, source lines 389-400: if some grid cell or
the nav button carries the focused class, or the application zone owns a
live frame handle, nothing happens; otherwise the zone is forced back to
the status bar. -/
def recoverFocus (s : ShellState) : ShellState × List Ev × Bool :=
  if s.gridHasFocusedCell || s.navFocused then (s, [], false)
  else if s.focusZone = .app ∧ s.currentApp.iframe.isSome then (s, [], false)
  else
    let z := applyZoneFocus { s with focusZone := .statusbar }
    (z.1, .recoveryTriggered :: z.2.1, z.2.2)

/-- ShellRuntime.handleBackButtonDown, source lines 525-536: clear any
pending long-press timer and arm a fresh one for now + 250 ms. -/
def handleBackButtonDown (s : ShellState) (now : Int) : ShellState :=
  { s with isLongPress := false, backTimer := some (now + 250) }

/-- The long-press timer body, source lines 531-535: mark the press long
and return home immediately, at the moment the threshold elapses. -/
def fireBackTimer (s : ShellState) (deadline : Int) : ShellState × List Ev :=
  let r := returnToHomeGrid { s with backTimer := none, isLongPress := true }
  (r.1, .longPressFired deadline :: r.2)

/-- ShellRuntime.handleBackButtonUp, source lines 538-555: cancel the
timer; when the press was not classified long, run the short-press action
(home when at the application root, otherwise forward a back command);
finally reset the long-press flag.  A TypeError thrown by the back-command
post ends the handler early, exactly as an uncaught exception would. -/
def handleBackButtonUp (s : ShellState) : ShellState × List Ev × Bool :=
  let s1 := { s with backTimer := none }
  if s1.isLongPress then ({ s1 with isLongPress := false }, [], false)
  else if s1.currentApp.id.isSome then
    if truthy s1.currentApp.atRoot then
      let r := returnToHomeGrid s1
      ({ r.1 with isLongPress := false }, .shortPress :: r.2, false)
    else
      let p := postEvs s1.currentApp .cmdBack
      if p.2 then (s1, .shortPress :: p.1, true)
      else ({ s1 with isLongPress := false }, .shortPress :: p.1, false)
  else ({ s1 with isLongPress := false }, [.shortPress], false)

/-- The deferred press-up scheduled by the status-bar click branch,
source line 485: it simply invokes handleBackButtonUp. -/
def fireSynthUp (s : ShellState) : ShellState × List Ev :=
  let r := handleBackButtonUp { s with synthUpTimer := none }
  (r.1, r.2.1)

/-- Fire the single due timer with the earliest deadline, if any.  The two
timers the shell ever schedules are the long-press timer and the deferred
press-up of the status-bar click. -/
def fireOneDue (s : ShellState) (t : Int) : Option (ShellState × List Ev) :=
  match s.synthUpTimer, s.backTimer with
  | some a, some b =>
      if a ≤ b then
        if a ≤ t then some (fireSynthUp s) else none
      else
        if b ≤ t then some (fireBackTimer s b) else none
  | some a, none => if a ≤ t then some (fireSynthUp s) else none
  | none, some b => if b ≤ t then some (fireBackTimer s b) else none
  | none, none => none

/-- Run the due timer callbacks that the event loop delivers before an
event with timestamp t.  Neither callback schedules a new timer, so two
rounds exhaust every due timer. -/
def fireDueTimers (s : ShellState) (t : Int) : ShellState × List Ev :=
  match fireOneDue s t with
  | none => (s, [])
  | some r1 =>
      match fireOneDue r1.1 t with
      | none => r1
      | some r2 => (r2.1, r1.2 ++ r2.2)

/-- An inbound window message as the shell handler observes it:
whether event.origin equals location.origin, whether event.data is a
non-null object, the value of data.type when it is a string, and the
atRoot and elementId fields (none models an absent or undefined field). -/
structure IframeMsg where
  sameOrigin : Bool
  isObject : Bool
  typeField : Option String
  atRoot : Option Bool
  elementId : Option String
deriving DecidableEq, Repr

/-- The inbound allow-list, source line 729. -/
def allowedTypes : List String := ["APP_NAV_STATE", "APP_AT_TOP", "UI_ACTION_START"]

/-- ShellRuntime.handleIframeMessage, source lines 724-751: reject a
foreign origin, a non-object payload, a non-string type and a type outside
the allow-list; then handle the three allowed kinds.  Note that
APP_NAV_STATE copies data.atRoot into the session record without checking
the field is present. -/
def handleIframeMessage (s : ShellState) (m : IframeMsg) : ShellState × List Ev :=
  if ¬ m.sameOrigin then (s, [])
  else if ¬ m.isObject then (s, [])
  else
    match m.typeField with
    | none => (s, [])
    | some ty =>
        if ty ∉ allowedTypes then (s, [])
        else if ty = "APP_NAV_STATE" then
          let s1 := { s with currentApp := { s.currentApp with atRoot := m.atRoot } }
          (updateNavIcon s1 (truthy m.atRoot), [])
        else if ty = "APP_AT_TOP" then
          let s1 := { s with currentApp := { s.currentApp with atRoot := some true } }
          if s1.focusZone = .app then
            let z := applyZoneFocus { s1 with focusZone := .statusbar }
            (z.1, z.2.1)
          else (s1, [])
        else
          let p := postEvs s.currentApp (.uiActionAck m.elementId)
          (s, p.1)

/-- ShellRuntime.injectBridgeTheme, source lines 586-632: with a live
same-origin document the style is injected and THEME_READY posted; a null
contentDocument returns silently; a cross-origin access throws, is caught,
and the theme tokens are posted instead. -/
def injectBridgeTheme (s : ShellState) (f : Frame) : ShellState × List Ev :=
  if f.hasWindow && f.docAccess then
    let p := postEvs s.currentApp .themeReady
    (s, p.1)
  else if ¬ f.hasWindow then (s, [])
  else
    let p := postEvs s.currentApp .themeUpdate
    (s, p.1)

/-- The load event of the embedded frame.  launchApp installed the onload
closure of source lines 565-568 on the current frame; teardown nulls it,
so the closure runs only while it is still installed: the loading
indicator is dismissed and the bridge theme injected. -/
def onFrameLoaded (s : ShellState) : ShellState × List Ev :=
  match s.currentApp.iframe with
  | some f =>
      if f.onloadSet then
        injectBridgeTheme { s with loadingVisible := false } f
      else (s, [])
  | none => (s, [])

/-- The error event of the embedded frame.  launchApp never installs an
onerror handler (teardownCurrentApp only nulls one, source line 660), so
a frame that fails to initialize runs no shell code at all: no state
changes, the loading indicator stays as it is. -/
def onFrameFailed (s : ShellState) : ShellState × List Ev :=
  (s, [])

/-- ShellRuntime.setInteractionMode, source lines 341-345. -/
def setInteractionMode (s : ShellState) (mode : String) : ShellState :=
  if s.interactionMode = mode then s else { s with interactionMode := mode }

/-- ASCII lowercasing of one character, as String.prototype.toLowerCase
acts on the ASCII input values the shell compares against. -/
def lowerChar (c : Char) : Char :=
  if 65 ≤ c.toNat ∧ c.toNat ≤ 90 then Char.ofNat (c.toNat + 32) else c

/-- String(x).toLowerCase() as used on input values (ASCII range). -/
def lowerStr (s : String) : String := ⟨s.data.map lowerChar⟩

/-- The dial-routing section of handleHardwareInput, source lines 427-478,
reached only by accepted dial events. -/
def dialRouting (s : ShellState) (inp : HwInput) : ShellState × List Ev :=
  let dir := lowerStr inp.value
  if dir = "up" then
    match s.focusZone with
    | .grid =>
        let z := applyZoneFocus { s with focusZone := .statusbar }
        (z.1, z.2.1)
    | .app =>
        if truthy s.currentApp.atRoot then
          let z := applyZoneFocus { s with focusZone := .statusbar }
          (z.1, z.2.1)
        else
          let p := postEvs s.currentApp (.hardwareEvent inp.kind inp.value)
          (s, p.1)
    | .statusbar => (s, [])
  else if dir = "down" then
    match s.focusZone with
    | .statusbar =>
        let z := applyZoneFocus
          { s with focusZone := if s.currentApp.id.isSome then .app else .grid }
        (z.1, z.2.1)
    | .app =>
        let p := postEvs s.currentApp (.hardwareEvent inp.kind inp.value)
        (s, p.1)
    | .grid => (s, [])
  else
    match s.focusZone with
    | .statusbar =>
        if dir = "right" then
          let z := applyZoneFocus
            { s with focusZone := if s.currentApp.id.isSome then .app else .grid }
          (z.1, z.2.1)
        else (s, [])
    | .grid =>
        let len := (s.apps.filter (fun a => a.enabled)).length
        (renderAppGrid
          { s with focusedAppIndex := gridMove dir s.focusedAppIndex len }, [])
    | .app =>
        let p := postEvs s.currentApp (.hardwareEvent inp.kind inp.value)
        (s, p.1)

/-- Indexing a JavaScript array with a possibly-NaN number:
arr[NaN] is undefined. -/
def idxGet {α : Type} (i : GridIndex) (l : List α) : Option α :=
  match i with
  | .idx n => l[n]?
  | .nan => none

/-- The button section of handleHardwareInput: preset shortcuts and the
physical back-button edges (source lines 414-424) followed by the
dial-click routing (source lines 481-498). -/
def buttonRouting (s : ShellState) (inp : HwInput) (now : Int) :
    ShellState × List Ev :=
  let val := lowerStr inp.value
  if val = "preset_1" then launchApp s "counter"
  else if val = "preset_2" then launchApp s "makemkv-key"
  else if val = "preset_4" then returnToHomeGrid s
  else if val = "back_button_down" then (handleBackButtonDown s now, [])
  else if val = "back_button_up" then
    let r := handleBackButtonUp s
    (r.1, r.2.1)
  else if val = "dial_click_down" then
    match s.focusZone with
    | .statusbar =>
        ({ handleBackButtonDown s now with synthUpTimer := some (now + 60) }, [])
    | .grid =>
        let enabled := s.apps.filter (fun a => a.enabled)
        match idxGet s.focusedAppIndex enabled with
        | some a => launchApp s a.id
        | none => (s, [])
    | .app =>
        let p := postEvs s.currentApp (.hardwareEvent inp.kind inp.value)
        (s, p.1)
  else (s, [])

/-- ShellRuntime.handleHardwareInput, source lines 402-499: switch to dial
interaction mode; throttle dial events to one per 25 ms and run the focus
recovery valve on each accepted one; dispatch buttons to the preset,
back-button and click handlers without any throttle; route accepted dial
events by focus zone.  Touch inputs fall through every branch. -/
def handleHardwareInput (s : ShellState) (inp : HwInput) (now : Int) :
    ShellState × List Ev :=
  let s := setInteractionMode s "dial"
  match inp.kind with
  | .dial =>
      if now - s.lastDialTime < 25 then (s, [])
      else
        let s1 := { s with lastDialTime := now }
        let r := recoverFocus s1
        if r.2.2 then (r.1, .dialAccepted now :: r.2.1)
        else
          let d := dialRouting r.1 inp
          (d.1, .dialAccepted now :: r.2.1 ++ d.2)
  | .button =>
      let b := buttonRouting s inp now
      (b.1, .buttonSeen inp.value :: b.2)
  | .touch => (s, [])

/-- The external stimuli of the embedded runtime: a hardware input, a
window message from the embedded application, the load or error event of
the embedded frame, and a server push of the application list
(handleServerMessage S2D_CONNECTED / S2D_APPS_RELOADED, source lines
287-301: this.apps = msg.apps; this.renderAppGrid()). -/
inductive ShellEvent
| hw (inp : HwInput)
| iframeMsg (m : IframeMsg)
| frameLoaded
| frameFailed
| serverApps (apps : List AppEntry)
deriving DecidableEq, Repr

/-- Deliver one external event at time t: the event loop first runs every
due timer callback, then the event handler itself. -/
def handleEvent (s : ShellState) (t : Int) (e : ShellEvent) :
    ShellState × List Ev :=
  let f := fireDueTimers s t
  let r :=
    match e with
    | .hw inp => handleHardwareInput f.1 inp t
    | .iframeMsg m => handleIframeMessage f.1 m
    | .frameLoaded => onFrameLoaded f.1
    | .frameFailed => onFrameFailed f.1
    | .serverApps l => (renderAppGrid { f.1 with apps := l }, [])
  (r.1, f.2 ++ r.2)

/-- Process a timestamped event sequence, accumulating the trace. -/
def runEvents (s : ShellState) : List (Int × ShellEvent) → ShellState × List Ev
  | [] => (s, [])
  | (t, e) :: rest =>
      let r1 := handleEvent s t e
      let r2 := runEvents r1.1 rest
      (r2.1, r1.2 ++ r2.2)

/-- Number of short-press classifications in a trace. -/
def countShort (tr : List Ev) : Nat := tr.count .shortPress

/-- Recognizer for long-press firings (any deadline). -/
def isLongFire : Ev → Bool
  | .longPressFired _ => true
  | _ => false

/-- Number of long-press firings in a trace. -/
def countLong (tr : List Ev) : Nat := tr.countP isLongFire

/-- Number of returns to the home grid in a trace. -/
def countHome (tr : List Ev) : Nat := tr.count .returnedHome

/-- The timestamps of the dial events the throttle accepted, in order. -/
def acceptedTimes (tr : List Ev) : List Int :=
  tr.filterMap (fun e => match e with | .dialAccepted t => some t | _ => none)

/-- A concrete shell state used by the closed witness statements: two
enabled applications, grid zone, first cell highlighted, no session. -/
def demoState : ShellState :=
  { apps := [⟨"counter", true⟩, ⟨"makemkv-key", true⟩],
    configOrder := ["counter", "makemkv-key"],
    focusZone := .grid,
    focusedAppIndex := .idx 0,
    statusBarFocusIndex := 0,
    currentApp := { id := none, iframe := none, atRoot := some true },
    interactionMode := "dial",
    lastDialTime := 0,
    backTimer := none,
    synthUpTimer := none,
    isLongPress := false,
    loadingVisible := false,
    homeActive := true,
    appActive := false,
    navHidden := true,
    navFocused := false,
    navMuted := false,
    navAtRootClass := false,
    navIcon := "apps",
    gridHasFocusedCell := true,
    gridLen := 2,
    container := [] }

/-- A live same-origin frame as launchApp creates it. -/
def demoFrame : Frame :=
  { src := "/apps/counter/index.html", hasWindow := true, docAccess := true,
    docCleared := false, onloadSet := true, onerrorSet := false }

/-- A concrete state with a running application session. -/
def demoAppState : ShellState :=
  { demoState with
    focusZone := .app,
    currentApp := { id := some "counter", iframe := some demoFrame,
                    atRoot := some true },
    homeActive := false, appActive := true, navHidden := false,
    gridHasFocusedCell := false,
    container := [demoFrame] }

/-- C4.  For every sequence of directional dial inputs processed in the
grid zone with count > 0 enabled entries, the highlighted index stays in
[0, count); horizontal navigation wraps modulo count (index count-1 plus
dial-right gives 0, index 0 plus dial-left gives count-1); and when the
entry list shrinks, renderAppGrid clamps an out-of-range index back to the
last valid position. -/
theorem c4_grid_highlight_in_range_wraps_and_clamps :
    (∀ (dirs : List String) (n len : Nat), 0 < len → n < len →
      inGridRange (dirs.foldl (fun j d => gridMove d j len) (.idx n)) len)
  ∧ (∀ len : Nat, 0 < len →
      gridRight (.idx (len - 1)) len = .idx 0
      ∧ gridLeft (.idx 0) len = .idx (len - 1))
  ∧ (∀ n len : Nat, 0 < len → len ≤ n →
      clampIdx (.idx n) len = .idx (len - 1)) := by
  refine ⟨fun dirs n len hlen hn => foldl_gridMove_inRange dirs hlen hn, ?_, ?_⟩
  · intro len hlen
    cases len with
    | zero => exact absurd hlen (by simp)
    | succ l =>
        constructor
        · show GridIndex.idx ((l + 1 - 1 + 1) % (l + 1)) = GridIndex.idx 0
          simp
        · show GridIndex.idx ((0 + (l + 1) - 1) % (l + 1)) = GridIndex.idx (l + 1 - 1)
          simp [Nat.mod_eq_of_lt]
  · intro n len hlen hn
    simp [clampIdx, hn, hlen]

theorem lowerStr_preset1 : lowerStr "preset_1" = "preset_1" := by decide

theorem lowerStr_preset2 : lowerStr "preset_2" = "preset_2" := by decide

theorem lowerStr_preset4 : lowerStr "preset_4" = "preset_4" := by decide

theorem lowerStr_backDown : lowerStr "back_button_down" = "back_button_down" := by decide

theorem lowerStr_backUp : lowerStr "back_button_up" = "back_button_up" := by decide

theorem lowerStr_click : lowerStr "dial_click_down" = "dial_click_down" := by decide

theorem lowerStr_left : lowerStr "left" = "left" := by decide

theorem lowerStr_right : lowerStr "right" = "right" := by decide

theorem lowerStr_up : lowerStr "up" = "up" := by decide

theorem lowerStr_down : lowerStr "down" = "down" := by decide

/-- With no pending timer, event delivery runs no timer callback. -/
theorem fireDueTimers_none {s : ShellState} (t : Int)
    (h1 : s.synthUpTimer = none) (h2 : s.backTimer = none) :
    fireDueTimers s t = (s, []) := by
  simp [fireDueTimers, fireOneDue, h1, h2]

/-- launchApp installs the fresh frame as the one and only session. -/
theorem launchApp_currentApp (s : ShellState) (a : String) :
    (launchApp s a).1.currentApp
      = ⟨some a, some (launchFrame a), some true⟩ := by
  unfold launchApp
  cases h : s.currentApp.iframe <;>
    simp [teardownCurrentApp, h, applyZoneFocus, postEvs, launchFrame,
          updateNavIcon]

/-- returnToHomeGrid clears the session and restores the grid zone. -/
theorem returnToHomeGrid_resets (s : ShellState) :
    (returnToHomeGrid s).1.currentApp = ⟨none, none, some true⟩
    ∧ (returnToHomeGrid s).1.focusZone = Zone.grid := by
  unfold returnToHomeGrid
  cases h : s.currentApp.iframe <;>
    simp [teardownCurrentApp, h, renderAppGrid]

/-- Closed witness for C4 at count 3. -/
theorem c4_witness :
    inGridRange (["left"].foldl (fun j d => gridMove d j 3) (.idx 0)) 3
    ∧ (gridRight (.idx 2) 3 = .idx 0 ∧ gridLeft (.idx 0) 3 = .idx 2)
    ∧ clampIdx (.idx 5) 3 = .idx 2 :=
  ⟨c4_grid_highlight_in_range_wraps_and_clamps.1 ["left"] 0 3 (by decide) (by decide),
   c4_grid_highlight_in_range_wraps_and_clamps.2.1 3 (by decide),
   c4_grid_highlight_in_range_wraps_and_clamps.2.2 5 3 (by decide) (by decide)⟩

/-- C1, evaluated at the failing input.  A launch installs only an onload
handler, so when the frame fails to initialize (error event instead of
load) the shell runs no code at all: the state after the failure equals
the state right after the launch, the transient loading indicator is
still visible, the focus zone is still the application, the home grid is
not restored and nothing is retried (the failure step emits no events).
This contradicts the claim that the loading indicator is dismissed and
the shell falls back to the launcher grid. -/
theorem c1_frame_failure_strands_loading_indicator :
    (launchApp demoState "counter").1.loadingVisible = true
    ∧ (handleEvent (launchApp demoState "counter").1 1000 .frameFailed).1
        = (launchApp demoState "counter").1
    ∧ (handleEvent (launchApp demoState "counter").1 1000 .frameFailed).1.loadingVisible
        = true
    ∧ (handleEvent (launchApp demoState "counter").1 1000 .frameFailed).1.focusZone
        = Zone.app
    ∧ (handleEvent (launchApp demoState "counter").1 1000 .frameFailed).1.homeActive
        = false
    ∧ (handleEvent (launchApp demoState "counter").1 1000 .frameFailed).2 = [] := by
  decide

/-- C10.  For every shell state without a pending timer callback, whatever
the focus zone and whether an application is running, a button input with
value preset_1 is exactly a launch of the application counter, preset_2
exactly a launch of makemkv-key, and preset_4 exactly a return to the home
grid (tearing down any active session): the handler result is literally
the launch or home-return composed with the dial interaction-mode switch,
so neither the focus-zone routing nor the press-duration detector takes
part. -/
theorem c10_preset_shortcuts_bypass_routing_and_detector :
    ∀ (s : ShellState) (t : Int),
      s.synthUpTimer = none → s.backTimer = none →
      (handleEvent s t (.hw ⟨.button, "preset_1"⟩)
         = ((launchApp (setInteractionMode s "dial") "counter").1,
            .buttonSeen "preset_1" ::
              (launchApp (setInteractionMode s "dial") "counter").2))
      ∧ (handleEvent s t (.hw ⟨.button, "preset_2"⟩)
         = ((launchApp (setInteractionMode s "dial") "makemkv-key").1,
            .buttonSeen "preset_2" ::
              (launchApp (setInteractionMode s "dial") "makemkv-key").2))
      ∧ (handleEvent s t (.hw ⟨.button, "preset_4"⟩)
         = ((returnToHomeGrid (setInteractionMode s "dial")).1,
            .buttonSeen "preset_4" ::
              (returnToHomeGrid (setInteractionMode s "dial")).2))
      ∧ (handleEvent s t (.hw ⟨.button, "preset_1"⟩)).1.currentApp.id
          = some "counter"
      ∧ (handleEvent s t (.hw ⟨.button, "preset_2"⟩)).1.currentApp.id
          = some "makemkv-key"
      ∧ (handleEvent s t (.hw ⟨.button, "preset_4"⟩)).1.currentApp.id = none
      ∧ (handleEvent s t (.hw ⟨.button, "preset_4"⟩)).1.focusZone = Zone.grid := by
  intro s t h1 h2
  have e1 : handleEvent s t (.hw ⟨.button, "preset_1"⟩)
      = ((launchApp (setInteractionMode s "dial") "counter").1,
         .buttonSeen "preset_1" ::
           (launchApp (setInteractionMode s "dial") "counter").2) := by
    simp [handleEvent, fireDueTimers_none t h1 h2, handleHardwareInput,
          buttonRouting, lowerStr_preset1]
  have e2 : handleEvent s t (.hw ⟨.button, "preset_2"⟩)
      = ((launchApp (setInteractionMode s "dial") "makemkv-key").1,
         .buttonSeen "preset_2" ::
           (launchApp (setInteractionMode s "dial") "makemkv-key").2) := by
    simp [handleEvent, fireDueTimers_none t h1 h2, handleHardwareInput,
          buttonRouting, lowerStr_preset2]
  have e4 : handleEvent s t (.hw ⟨.button, "preset_4"⟩)
      = ((returnToHomeGrid (setInteractionMode s "dial")).1,
         .buttonSeen "preset_4" ::
           (returnToHomeGrid (setInteractionMode s "dial")).2) := by
    simp [handleEvent, fireDueTimers_none t h1 h2, handleHardwareInput,
          buttonRouting, lowerStr_preset4]
  refine ⟨e1, e2, e4, ?_, ?_, ?_, ?_⟩
  · rw [e1]; rw [launchApp_currentApp]
  · rw [e2]; rw [launchApp_currentApp]
  · rw [e4]; exact congrArg CurrentApp.id (returnToHomeGrid_resets _).1
  · rw [e4]; exact (returnToHomeGrid_resets _).2

/-- setInteractionMode always results in the requested mode (structure
eta collapses the branch that skips the redundant write). -/
theorem setInteractionMode_eq (s : ShellState) (m : String) :
    setInteractionMode s m = { s with interactionMode := m } := by
  unfold setInteractionMode
  split
  · rename_i h; rw [← h]
  · rfl

/-- applyZoneFocus only rewrites focus highlights: the zone, the session,
the container, the timers and the launcher data are untouched. -/
theorem applyZoneFocus_preserves (s : ShellState) :
    (applyZoneFocus s).1.focusZone = s.focusZone
    ∧ (applyZoneFocus s).1.currentApp = s.currentApp
    ∧ (applyZoneFocus s).1.container = s.container
    ∧ (applyZoneFocus s).1.lastDialTime = s.lastDialTime
    ∧ (applyZoneFocus s).1.backTimer = s.backTimer
    ∧ (applyZoneFocus s).1.synthUpTimer = s.synthUpTimer
    ∧ (applyZoneFocus s).1.isLongPress = s.isLongPress
    ∧ (applyZoneFocus s).1.loadingVisible = s.loadingVisible
    ∧ (applyZoneFocus s).1.apps = s.apps
    ∧ (applyZoneFocus s).1.interactionMode = s.interactionMode := by
  unfold applyZoneFocus
  cases hz : s.focusZone <;>
    simp [hz, renderAppGrid] <;> (repeat' split) <;> simp

/-- A concrete state with status-bar focus and no running session. -/
def c6State : ShellState :=
  { demoState with
    focusZone := Zone.statusbar,
    navFocused := true,
    navHidden := false }

/-- C5, counterexample.  An allow-listed APP_NAV_STATE message that passes
the origin and object checks but misses its required atRoot field is not
dropped: the handler overwrites the session's at-root flag with the
undefined value, changing shell state, contrary to the claim that a
message missing a required field has no effect. -/
theorem c5_missing_field_changes_state_counterexample :
    demoAppState.currentApp.atRoot = some true
    ∧ (handleIframeMessage demoAppState
        ⟨true, true, some "APP_NAV_STATE", none, none⟩).1.currentApp.atRoot
        = none
    ∧ (handleIframeMessage demoAppState
        ⟨true, true, some "APP_NAV_STATE", none, none⟩).1
        ≠ demoAppState := by decide

/-- C5 as amended.  Every inbound message whose origin differs from the
shell origin, whose payload is not an object, or whose type field is not
a string in the allow-list is dropped with no state change and no emitted
action.  (Presence of per-kind fields is not validated: see the
counterexample.) -/
theorem c5_unrecognized_messages_dropped_without_effect :
    ∀ (s : ShellState) (m : IframeMsg),
      (m.sameOrigin = false ∨ m.isObject = false ∨ m.typeField = none
        ∨ (∀ ty, m.typeField = some ty → ty ∉ allowedTypes)) →
      handleIframeMessage s m = (s, []) := by
  intro s m h
  unfold handleIframeMessage
  cases h1 : m.sameOrigin with
  | false => simp
  | true =>
      cases h2 : m.isObject with
      | false => simp
      | true =>
          simp only [h1, h2]
          cases h3 : m.typeField with
          | none => simp
          | some ty =>
              have h4 : ty ∉ allowedTypes := by
                rcases h with h | h | h | h
                · rw [h1] at h; cases h
                · rw [h2] at h; cases h
                · rw [h3] at h; cases h
                · exact h ty h3
              simp [h4]

/-- Closed witness for C5: a cross-origin message is dropped whole. -/
theorem c5_witness :
    handleIframeMessage demoAppState
      ⟨false, true, some "APP_NAV_STATE", some false, none⟩
      = (demoAppState, []) :=
  c5_unrecognized_messages_dropped_without_effect demoAppState
    ⟨false, true, some "APP_NAV_STATE", some false, none⟩ (Or.inl rfl)

/-- C6, counterexample.  A dial-right processed while the status bar is
focused does leave the status bar: with no running application the zone
becomes the grid, contrary to the claim that horizontal input never moves
focus out of the status bar. -/
theorem c6_dial_right_leaves_statusbar_counterexample :
    c6State.focusZone = Zone.statusbar
    ∧ (handleEvent c6State 100 (.hw ⟨.dial, "right"⟩)).1.focusZone
        = Zone.grid := by decide

/-- C6 as amended.  While the status bar is focused, dial-left is a no-op
(only the interaction mode and the throttle clock change), and dial-right
moves the focus zone to the application zone when a session is running,
otherwise to the grid. -/
theorem c6_statusbar_dial_left_noop_right_exits :
    ∀ (s : ShellState) (t : Int),
      s.focusZone = Zone.statusbar → s.navFocused = true →
      s.synthUpTimer = none → s.backTimer = none →
      s.lastDialTime + 25 ≤ t →
      handleEvent s t (.hw ⟨.dial, "left"⟩)
        = ({ s with interactionMode := "dial", lastDialTime := t },
           [.dialAccepted t])
      ∧ (handleEvent s t (.hw ⟨.dial, "right"⟩)).1.focusZone
          = (if s.currentApp.id.isSome then Zone.app else Zone.grid) := by
  intro s t hz hnav h1 h2 hacc
  have hthr : ¬ (t - s.lastDialTime < 25) := by omega
  constructor
  · simp [handleEvent, fireDueTimers_none t h1 h2, handleHardwareInput,
          setInteractionMode_eq, hthr, recoverFocus, hnav, dialRouting,
          lowerStr_left, hz]
  · simp [handleEvent, fireDueTimers_none t h1 h2, handleHardwareInput,
          setInteractionMode_eq, hthr, recoverFocus, hnav, dialRouting,
          lowerStr_right, hz, (applyZoneFocus_preserves _).1]

/-- Closed witness for C6: dial-left in the status bar at time 100. -/
theorem c6_witness :
    handleEvent c6State 100 (.hw ⟨.dial, "left"⟩)
      = ({ c6State with interactionMode := "dial", lastDialTime := 100 },
         [.dialAccepted 100]) :=
  (c6_statusbar_dial_left_noop_right_exits c6State 100 rfl rfl rfl rfl
    (by decide)).1

/-- A concrete state with the grid focused and an empty application list,
the rendered grid accordingly holding no cells. -/
def c7State : ShellState :=
  { demoState with
    apps := [],
    configOrder := [],
    gridHasFocusedCell := false,
    gridLen := 0 }

/-- C7.  A dial-left or dial-right processed while the grid zone is
focused and the enabled-entry list is empty is a no-op on the highlight:
the index is unchanged (and stays the integer it was, so it remains valid
for later non-empty lists) and nothing throws — the whole step emits only
the throttle-accept and recovery markers.  The modulo-by-zero (NaN) of the
raw move is never reached because the focus-recovery valve, seeing no
focused cell and no focused nav item, reroutes the zone to the status bar
before the grid branch runs; the status-bar branch leaves the index
alone. -/
theorem c7_empty_grid_dial_is_noop_on_highlight :
    ∀ (s : ShellState) (t : Int) (dir : String) (n : Nat),
      s.focusZone = Zone.grid →
      s.apps.filter (fun a => a.enabled) = [] →
      s.gridHasFocusedCell = false → s.navFocused = false →
      s.currentApp.id = none → s.currentApp.iframe = none →
      s.synthUpTimer = none → s.backTimer = none →
      s.lastDialTime + 25 ≤ t →
      s.focusedAppIndex = GridIndex.idx n →
      (dir = "left" ∨ dir = "right") →
      (handleEvent s t (.hw ⟨.dial, dir⟩)).1.focusedAppIndex = GridIndex.idx n
      ∧ (handleEvent s t (.hw ⟨.dial, dir⟩)).2
          = [.dialAccepted t, .recoveryTriggered] := by
  intro s t dir n hz hfil hcell hnav hid hif h1 h2 hacc hidx hdir
  have hthr : ¬ (t - s.lastDialTime < 25) := by omega
  rcases hdir with h | h <;> subst h <;>
    by_cases hsb : s.statusBarFocusIndex = 0 ∧ s.navHidden = false <;>
      constructor <;>
        simp [handleEvent, fireDueTimers_none t h1 h2, handleHardwareInput,
              setInteractionMode_eq, hthr, recoverFocus, hcell, hnav, hz, hid,
              applyZoneFocus, dialRouting, lowerStr_left, lowerStr_right,
              postEvs, hidx, hsb, renderAppGrid, sortedAppsOf, syncOrder,
              hfil, clampIdx]

/-- Closed witness for C7: dial-left on an empty grid at time 100. -/
theorem c7_witness :
    (handleEvent c7State 100 (.hw ⟨.dial, "left"⟩)).1.focusedAppIndex
      = GridIndex.idx 0
    ∧ (handleEvent c7State 100 (.hw ⟨.dial, "left"⟩)).2
      = [.dialAccepted 100, .recoveryTriggered] :=
  c7_empty_grid_dial_is_noop_on_highlight c7State 100 "left" 0 rfl rfl rfl
    rfl rfl rfl rfl rfl (by decide) rfl (Or.inl rfl)

/-- A frame whose element has been detached: contentWindow is null. -/
def c9DeadFrame : Frame := { demoFrame with hasWindow := false }

/-- Application zone with a frame handle present but detached. -/
def c9DetachedState : ShellState :=
  { demoAppState with
    currentApp := { id := some "counter", iframe := some c9DeadFrame,
                    atRoot := some true },
    container := [] }

/-- Application zone with the frame handle itself gone (null). -/
def c9NullState : ShellState :=
  { demoAppState with
    currentApp := { id := some "counter", iframe := none,
                    atRoot := some true },
    container := [] }

/-- C9, counterexample.  When the frame handle is still present but the
frame is detached (contentWindow absent), a dial processed in the
application zone does throw: postMessageToApp guards only the handle and
then dereferences the null contentWindow, contrary to the claim that the
dispatch never throws when the frame is unusable. -/
theorem c9_detached_frame_throws_counterexample :
    c9DetachedState.focusZone = Zone.app
    ∧ Ev.postThrew
        ∈ (handleEvent c9DetachedState 100 (.hw ⟨.dial, "right"⟩)).2 := by
  decide

/-- C9 as amended.  First part: when the frame handle itself is gone
(null), a dial processed in the application zone does not throw — the
forward is silently dropped and the focus-recovery valve runs on that very
accepted event (trace: accept marker then recovery marker, no post, no
throw).  Second part: when the handle is present but its content window is
absent, the dispatch throws a TypeError (trace ends in the throw
marker). -/
theorem c9_dial_with_dead_frame :
    (∀ (s : ShellState) (t : Int) (dir : String),
      s.focusZone = Zone.app → s.currentApp.iframe = none →
      s.gridHasFocusedCell = false → s.navFocused = false →
      s.synthUpTimer = none → s.backTimer = none →
      s.lastDialTime + 25 ≤ t →
      (dir = "left" ∨ dir = "right" ∨ dir = "up" ∨ dir = "down") →
      (handleEvent s t (.hw ⟨.dial, dir⟩)).2
        = [.dialAccepted t, .recoveryTriggered])
    ∧ (∀ (s : ShellState) (t : Int) (dir : String) (f : Frame),
      s.focusZone = Zone.app → s.currentApp.iframe = some f →
      f.hasWindow = false →
      s.synthUpTimer = none → s.backTimer = none →
      s.lastDialTime + 25 ≤ t →
      (dir = "left" ∨ dir = "right") →
      (handleEvent s t (.hw ⟨.dial, dir⟩)).2
        = [.dialAccepted t, .postThrew]) := by
  constructor
  · intro s t dir hz hif hcell hnav h1 h2 hacc hdir
    have hthr : ¬ (t - s.lastDialTime < 25) := by omega
    rcases hdir with h | h | h | h <;> subst h <;>
      by_cases hsb : s.statusBarFocusIndex = 0 ∧ s.navHidden = false <;>
        by_cases hidOpt : s.currentApp.id.isSome <;>
          simp [handleEvent, fireDueTimers_none t h1 h2, handleHardwareInput,
                setInteractionMode_eq, hthr, recoverFocus, hcell, hnav, hz,
                hif, hidOpt, hsb, applyZoneFocus, dialRouting, lowerStr_left,
                lowerStr_right, lowerStr_up, lowerStr_down, postEvs,
                renderAppGrid]
  · intro s t dir f hz hif hwin h1 h2 hacc hdir
    have hthr : ¬ (t - s.lastDialTime < 25) := by omega
    rcases hdir with h | h <;> subst h <;>
      simp [handleEvent, fireDueTimers_none t h1 h2, handleHardwareInput,
            setInteractionMode_eq, hthr, recoverFocus, hz, hif, hwin,
            dialRouting, lowerStr_left, lowerStr_right, postEvs]

/-- Closed witness for C9: dial-right with a null frame handle. -/
theorem c9_witness :
    (handleEvent c9NullState 100 (.hw ⟨.dial, "right"⟩)).2
      = [.dialAccepted 100, .recoveryTriggered] :=
  c9_dial_with_dead_frame.1 c9NullState 100 "right" rfl rfl rfl rfl rfl rfl
    (by decide) (Or.inr (Or.inl rfl))

/-- Closed witness for C10: the preset_4 shortcut pressed while an
application session is active and the application zone owns focus. -/
theorem c10_witness :
    (handleEvent demoAppState 100 (.hw ⟨.button, "preset_4"⟩)).1.currentApp.id
      = none
    ∧ (handleEvent demoAppState 100 (.hw ⟨.button, "preset_4"⟩)).1.focusZone
      = Zone.grid :=
  ⟨(c10_preset_shortcuts_bypass_routing_and_detector demoAppState 100 rfl
      rfl).2.2.2.2.2.1,
   (c10_preset_shortcuts_bypass_routing_and_detector demoAppState 100 rfl
      rfl).2.2.2.2.2.2⟩

theorem postEvs_counts (c : CurrentApp) (m : OutMsg) :
    countShort (postEvs c m).1 = 0 ∧ countLong (postEvs c m).1 = 0 := by
  unfold postEvs
  cases h : c.iframe with
  | none => simp [countShort, countLong]
  | some f =>
      by_cases hw : f.hasWindow <;>
        simp [hw, countShort, countLong, isLongFire]

theorem returnToHomeGrid_counts (s : ShellState) :
    countShort (returnToHomeGrid s).2 = 0
    ∧ countLong (returnToHomeGrid s).2 = 0
    ∧ countHome (returnToHomeGrid s).2 = 1 := by
  unfold returnToHomeGrid
  cases h : s.currentApp.iframe <;>
    simp [teardownCurrentApp, h, countShort, countLong, countHome,
          isLongFire, renderAppGrid]

theorem returnToHomeGrid_preserves (s : ShellState) :
    (returnToHomeGrid s).1.backTimer = s.backTimer
    ∧ (returnToHomeGrid s).1.synthUpTimer = s.synthUpTimer
    ∧ (returnToHomeGrid s).1.isLongPress = s.isLongPress := by
  unfold returnToHomeGrid
  cases h : s.currentApp.iframe <;>
    simp [teardownCurrentApp, h, renderAppGrid]

theorem handleBackButtonUp_trace (s : ShellState) (h : s.isLongPress = false) :
    (handleBackButtonUp s).2.1
      = if s.currentApp.id.isSome then
          (if truthy s.currentApp.atRoot then
            Ev.shortPress :: (returnToHomeGrid { s with backTimer := none }).2
          else
            Ev.shortPress :: (postEvs s.currentApp OutMsg.cmdBack).1)
        else [Ev.shortPress] := by
  unfold handleBackButtonUp
  by_cases hid : s.currentApp.id.isSome <;>
    by_cases hroot : truthy s.currentApp.atRoot <;>
      simp [h, hid, hroot] <;>
      rcases hpe : postEvs s.currentApp OutMsg.cmdBack with ⟨evs, th⟩ <;>
      cases th <;> simp_all

theorem handleBackButtonUp_counts (s : ShellState) (h : s.isLongPress = false) :
    countShort (handleBackButtonUp s).2.1 = 1
    ∧ countLong (handleBackButtonUp s).2.1 = 0 := by
  rw [handleBackButtonUp_trace s h]
  by_cases hid : s.currentApp.id.isSome <;>
    by_cases hroot : truthy s.currentApp.atRoot <;>
      simp [hid, hroot, countShort, countLong, isLongFire]
  · exact ⟨(returnToHomeGrid_counts _).1, by
      have := (returnToHomeGrid_counts { s with backTimer := none }).2.1
      simpa [countLong] using this⟩
  · exact ⟨(postEvs_counts _ _).1, by
      have := (postEvs_counts s.currentApp OutMsg.cmdBack).2
      simpa [countLong] using this⟩

theorem handleBackButtonUp_afterLong (s : ShellState) (h : s.isLongPress = true) :
    handleBackButtonUp s
      = ({ s with backTimer := none, isLongPress := false }, [], false) := by
  unfold handleBackButtonUp
  simp [h]

/-- The detector state right after a press-down at time t. -/
def armedState (s : ShellState) (t : Int) : ShellState :=
  { s with
    interactionMode := "dial",
    isLongPress := false,
    backTimer := some (t + 250) }

theorem armedState_interactionMode (s : ShellState) (t : Int) :
    (armedState s t).interactionMode = "dial" := rfl

theorem armedState_isLongPress (s : ShellState) (t : Int) :
    (armedState s t).isLongPress = false := rfl

theorem armedState_backTimer (s : ShellState) (t : Int) :
    (armedState s t).backTimer = some (t + 250) := rfl

theorem armedState_synthUpTimer (s : ShellState) (t : Int) :
    (armedState s t).synthUpTimer = s.synthUpTimer := rfl

theorem fireBackTimer_proj (x : ShellState) (d : Int) :
    (fireBackTimer x d).1.synthUpTimer = x.synthUpTimer
    ∧ (fireBackTimer x d).1.backTimer = none
    ∧ (fireBackTimer x d).1.isLongPress = true := by
  unfold fireBackTimer
  have hp := returnToHomeGrid_preserves
    { x with backTimer := none, isLongPress := true }
  exact ⟨hp.2.1, hp.1, hp.2.2⟩

theorem fireBackTimer_counts (x : ShellState) (d : Int) :
    countLong (fireBackTimer x d).2 = 1
    ∧ countShort (fireBackTimer x d).2 = 0
    ∧ countHome (fireBackTimer x d).2 = 1
    ∧ Ev.longPressFired d ∈ (fireBackTimer x d).2 := by
  have hc := returnToHomeGrid_counts
    { x with backTimer := none, isLongPress := true }
  unfold fireBackTimer
  refine ⟨?_, ?_, ?_, ?_⟩
  · simpa [countLong, isLongFire] using hc.2.1
  · simpa [countShort] using hc.1
  · simpa [countHome] using hc.2.2
  · simp

/-- C3.  Press-duration classification of the physical back button
(threshold 250 ms, source line 535).  A press-down at t followed by a
press-up at any time t2 before the threshold (t2 < t + 250) yields
exactly one ShortPress action and zero LongPress actions.  A press-down
held past t + 250 yields exactly one LongPress action, fired at deadline
t + 250 (the timer callback runs before the later press-up is
processed), together with exactly one return to the launcher home; the
subsequent press-up performs no additional back or home action (zero
ShortPress actions, and the single home return is the one fired at the
threshold). -/
theorem c3_press_duration_classification :
    ∀ (s : ShellState) (t t2 t3 : Int),
      s.synthUpTimer = none → s.backTimer = none →
      (t2 < t + 250 →
        countShort (runEvents s [(t, .hw ⟨.button, "back_button_down"⟩),
            (t2, .hw ⟨.button, "back_button_up"⟩)]).2 = 1
        ∧ countLong (runEvents s [(t, .hw ⟨.button, "back_button_down"⟩),
            (t2, .hw ⟨.button, "back_button_up"⟩)]).2 = 0)
      ∧ (t + 250 < t3 →
          countLong (runEvents s [(t, .hw ⟨.button, "back_button_down"⟩),
              (t3, .hw ⟨.button, "back_button_up"⟩)]).2 = 1
          ∧ countShort (runEvents s [(t, .hw ⟨.button, "back_button_down"⟩),
              (t3, .hw ⟨.button, "back_button_up"⟩)]).2 = 0
          ∧ Ev.longPressFired (t + 250)
              ∈ (runEvents s [(t, .hw ⟨.button, "back_button_down"⟩),
                  (t3, .hw ⟨.button, "back_button_up"⟩)]).2
          ∧ countHome (runEvents s [(t, .hw ⟨.button, "back_button_down"⟩),
              (t3, .hw ⟨.button, "back_button_up"⟩)]).2 = 1) := by
  intro s t t2 t3 h1 h2
  have hdown : handleEvent s t (.hw ⟨.button, "back_button_down"⟩)
      = (armedState s t, [.buttonSeen "back_button_down"]) := by
    simp [handleEvent, fireDueTimers_none t h1 h2, handleHardwareInput,
          buttonRouting, lowerStr_backDown, setInteractionMode_eq,
          handleBackButtonDown, armedState]
  constructor
  · intro hst
    have hnd : ¬ (t + 250 ≤ t2) := by omega
    have hfire : fireDueTimers (armedState s t) t2
        = (armedState s t, []) := by
      simp [fireDueTimers, fireOneDue, armedState_synthUpTimer, h1,
            armedState_backTimer, hnd]
    have hup : handleEvent (armedState s t) t2
          (.hw ⟨.button, "back_button_up"⟩)
        = ((handleBackButtonUp (armedState s t)).1,
           .buttonSeen "back_button_up"
             :: (handleBackButtonUp (armedState s t)).2.1) := by
      simp only [handleEvent]
      rw [hfire]
      simp [handleHardwareInput, buttonRouting, lowerStr_backUp,
            setInteractionMode, armedState_interactionMode]
    have hupc := handleBackButtonUp_counts (armedState s t)
      (armedState_isLongPress s t)
    constructor
    · simpa [runEvents, hdown, hup, countShort] using hupc.1
    · simpa [runEvents, hdown, hup, countLong, isLongFire] using hupc.2
  · intro hlt
    have hle : t + 250 ≤ t3 := by omega
    have hfire : fireDueTimers (armedState s t) t3
        = fireBackTimer (armedState s t) (t + 250) := by
      have hproj := fireBackTimer_proj (armedState s t) (t + 250)
      simp [fireDueTimers, fireOneDue, armedState_synthUpTimer, h1,
            armedState_backTimer, hle, hproj.1, hproj.2.1]
    have hLP := (fireBackTimer_proj (armedState s t) (t + 250)).2.2
    have hup : (handleEvent (armedState s t) t3
          (.hw ⟨.button, "back_button_up"⟩)).2
        = (fireBackTimer (armedState s t) (t + 250)).2
            ++ [.buttonSeen "back_button_up"] := by
      simp only [handleEvent]
      rw [hfire]
      simp [handleHardwareInput, buttonRouting, lowerStr_backUp,
            setInteractionMode_eq, handleBackButtonUp_afterLong _
              (show ({ (fireBackTimer (armedState s t) (t + 250)).1 with
                  interactionMode := "dial" } : ShellState).isLongPress = true
                from hLP)]
    have hcnt := fireBackTimer_counts (armedState s t) (t + 250)
    refine ⟨?_, ?_, ?_, ?_⟩
    · simpa [runEvents, hdown, hup, countLong, isLongFire,
             List.countP_append] using hcnt.1
    · simpa [runEvents, hdown, hup, countShort, List.count_append]
        using hcnt.2.1
    · simp [runEvents, hdown, hup]
      exact hcnt.2.2.2
    · simpa [runEvents, hdown, hup, countHome, List.count_append]
        using hcnt.2.2.1

/-- Closed witness for C3: a 200 ms press and a 300 ms press from the
concrete demo state. -/
theorem c3_witness :
    countShort (runEvents demoState [(0, .hw ⟨.button, "back_button_down"⟩),
        (200, .hw ⟨.button, "back_button_up"⟩)]).2 = 1
    ∧ countLong (runEvents demoState [(0, .hw ⟨.button, "back_button_down"⟩),
        (300, .hw ⟨.button, "back_button_up"⟩)]).2 = 1 :=
  ⟨((c3_press_duration_classification demoState 0 200 300 rfl rfl).1
      (by decide)).1,
   ((c3_press_duration_classification demoState 0 200 300 rfl rfl).2
      (by decide)).1⟩

theorem dialRouting_container (s : ShellState) (inp : HwInput) :
    (dialRouting s inp).1.container = s.container := by
  unfold dialRouting
  by_cases hu : lowerStr inp.value = "up" <;>
    by_cases hd : lowerStr inp.value = "down" <;>
      by_cases hr : lowerStr inp.value = "right" <;>
        cases hz : s.focusZone <;>
          simp [hu, hd, hr, hz, (applyZoneFocus_preserves _).2.2.1,
                renderAppGrid] <;>
            (repeat' split) <;>
              simp [(applyZoneFocus_preserves _).2.2.1]

theorem handleBackButtonUp_container (s : ShellState) :
    (handleBackButtonUp s).1.container = s.container
    ∨ (handleBackButtonUp s).1.container = [] := by
  unfold handleBackButtonUp returnToHomeGrid teardownCurrentApp
  by_cases hl : s.isLongPress = true
  · simp [hl]
  · by_cases hid : s.currentApp.id.isSome
    · by_cases hroot : truthy s.currentApp.atRoot
      · cases hf : s.currentApp.iframe <;> simp [hl, hid, hroot, hf, renderAppGrid]
      · rcases hpe : postEvs s.currentApp OutMsg.cmdBack with ⟨evs, th⟩ <;>
          cases th <;> simp [hl, hid, hroot, hpe]
    · simp [hl, hid]

theorem fireSynthUp_container (s : ShellState) :
    (fireSynthUp s).1.container = s.container
    ∨ (fireSynthUp s).1.container = [] := by
  unfold fireSynthUp
  rcases handleBackButtonUp_container { s with synthUpTimer := none }
    with h | h <;> simp_all

theorem fireBackTimer_container (s : ShellState) (d : Int) :
    (fireBackTimer s d).1.container = [] := by
  unfold fireBackTimer returnToHomeGrid teardownCurrentApp
  (repeat' split) <;> simp [renderAppGrid]

theorem fireOneDue_container (s : ShellState) (t : Int) :
    ∀ r, fireOneDue s t = some r →
      (r.1.container = s.container ∨ r.1.container = []) := by
  intro r h
  unfold fireOneDue at h
  (repeat' split at h)
  all_goals try cases h
  all_goals try (injection h with he; subst he)
  all_goals
    first
    | exact fireSynthUp_container s
    | exact Or.inr (fireBackTimer_container s _)

theorem fireDueTimers_container (s : ShellState) (t : Int) :
    (fireDueTimers s t).1.container = s.container
    ∨ (fireDueTimers s t).1.container = [] := by
  unfold fireDueTimers
  rcases h1 : fireOneDue s t with _ | r1
  · simp
  · have hr1 := fireOneDue_container s t r1 h1
    rcases h2 : fireOneDue r1.1 t with _ | r2
    · simp only [h1, h2]
      exact hr1
    · have hr2 := fireOneDue_container r1.1 t r2 h2
      simp only [h1, h2]
      rcases hr2 with h | h <;> rcases hr1 with h1c | h1c <;>
        simp [h, h1c]

theorem launchApp_container (s : ShellState) (a : String) :
    (launchApp s a).1.container = [launchFrame a] := by
  unfold launchApp
  cases h : s.currentApp.iframe <;>
    simp [teardownCurrentApp, h, applyZoneFocus, postEvs, launchFrame,
          updateNavIcon]

theorem returnToHomeGrid_container (s : ShellState) :
    (returnToHomeGrid s).1.container = [] := by
  unfold returnToHomeGrid teardownCurrentApp
  (repeat' split) <;> simp [renderAppGrid]

theorem buttonRouting_container (s : ShellState) (inp : HwInput) (now : Int) :
    (buttonRouting s inp now).1.container = s.container
    ∨ (buttonRouting s inp now).1.container = []
    ∨ ∃ a, (buttonRouting s inp now).1.container = [launchFrame a] := by
  unfold buttonRouting
  dsimp only
  (repeat' split)
  all_goals
    first
    | exact Or.inl rfl
    | exact Or.inr (Or.inl (returnToHomeGrid_container s))
    | exact Or.inr (Or.inr ⟨_, launchApp_container s _⟩)
    | (rcases handleBackButtonUp_container s with h | h
       · exact Or.inl h
       · exact Or.inr (Or.inl h))

theorem handleIframeMessage_container (s : ShellState) (m : IframeMsg) :
    (handleIframeMessage s m).1.container = s.container := by
  unfold handleIframeMessage
  (repeat' split)
  all_goals
    by_cases hz : s.focusZone = Zone.app <;>
      simp [hz, (applyZoneFocus_preserves _).2.2.1, updateNavIcon, postEvs]

theorem onFrameLoaded_container (s : ShellState) :
    (onFrameLoaded s).1.container = s.container := by
  unfold onFrameLoaded injectBridgeTheme
  (repeat' split) <;> simp

theorem setInteractionMode_container (x : ShellState) (m : String) :
    (setInteractionMode x m).container = x.container := by
  unfold setInteractionMode
  split <;> rfl

theorem recoverFocus_container (x : ShellState) :
    (recoverFocus x).1.container = x.container := by
  unfold recoverFocus
  (repeat' split) <;> simp [(applyZoneFocus_preserves _).2.2.1]

theorem handleEvent_containerOk (s : ShellState) (t : Int) (e : ShellEvent)
    (h : s.container.length ≤ 1) :
    (handleEvent s t e).1.container.length ≤ 1 := by
  unfold handleEvent
  have hf : (fireDueTimers s t).1.container.length ≤ 1 := by
    rcases fireDueTimers_container s t with hc | hc <;> simp [hc, h]
  cases e with
  | hw inp =>
      dsimp only
      unfold handleHardwareInput
      cases hk : inp.kind with
      | dial =>
          dsimp only
          split
          · simpa [setInteractionMode_container] using hf
          · split
            · simpa [recoverFocus_container, setInteractionMode_container]
                using hf
            · rw [dialRouting_container]
              simpa [recoverFocus_container, setInteractionMode_container]
                using hf
      | button =>
          dsimp only
          rcases buttonRouting_container
              (setInteractionMode (fireDueTimers s t).1 "dial") inp t
            with hb | hb | ⟨a, hb⟩ <;>
            simp [hb, setInteractionMode_container, hf]
      | touch => simpa [setInteractionMode_container] using hf
  | iframeMsg m =>
      simpa [handleIframeMessage_container] using hf
  | frameLoaded =>
      simpa [onFrameLoaded_container] using hf
  | frameFailed =>
      simpa [onFrameFailed] using hf
  | serverApps l =>
      simpa [renderAppGrid] using hf

theorem runEvents_containerOk (s : ShellState)
    (evts : List (Int × ShellEvent)) (h : s.container.length ≤ 1) :
    (runEvents s evts).1.container.length ≤ 1 := by
  induction evts generalizing s with
  | nil => exact h
  | cons p rest ih =>
      exact ih (handleEvent s p.1 p.2).1 (handleEvent_containerOk s p.1 p.2 h)

/-- C2.  First part: in every run of the shell from a state whose frame
container holds at most one child, every later observation point also
shows at most one child — at most one embedded frame (one application
session) ever exists.  Second part: a launch performed while a session
exists first emits the teardown of the previous frame (handlers nulled,
src pointed at about:blank, document cleared best-effort, container
emptied) strictly before the creation of the new frame, and installs the
new frame as the only container child. -/
theorem c2_single_session_teardown_before_launch :
    (∀ (s : ShellState) (evts : List (Int × ShellEvent)),
      s.container.length ≤ 1 → (runEvents s evts).1.container.length ≤ 1)
    ∧ (∀ (s : ShellState) (a : String) (f : Frame),
        s.currentApp.iframe = some f →
        (launchApp s a).2
          = [.teardownFrame (teardownFrame f), .containerCleared,
             .containerCleared, .frameCreated a, .post (.zoneFocus true)]
        ∧ (teardownFrame f).onloadSet = false
        ∧ (teardownFrame f).onerrorSet = false
        ∧ (teardownFrame f).src = "about:blank"
        ∧ (teardownFrame f).docCleared
            = (f.docCleared || (f.hasWindow && f.docAccess))
        ∧ (launchApp s a).1.container = [launchFrame a]) := by
  refine ⟨runEvents_containerOk, ?_⟩
  intro s a f hf
  refine ⟨?_, rfl, rfl, rfl, rfl, launchApp_container s a⟩
  unfold launchApp
  simp [teardownCurrentApp, hf, applyZoneFocus, postEvs, launchFrame,
        updateNavIcon]

/-- Closed witness for C2: two successive preset launches keep a single
container child, and a launch over a live session emits teardown first. -/
theorem c2_witness :
    (runEvents demoState [(100, .hw ⟨.button, "preset_1"⟩),
        (200, .hw ⟨.button, "preset_2"⟩)]).1.container.length ≤ 1
    ∧ (launchApp demoAppState "makemkv-key").2
        = [.teardownFrame (teardownFrame demoFrame), .containerCleared,
           .containerCleared, .frameCreated "makemkv-key",
           .post (.zoneFocus true)] :=
  ⟨c2_single_session_teardown_before_launch.1 demoState _ (by decide),
   (c2_single_session_teardown_before_launch.2 demoAppState "makemkv-key" demoFrame rfl).1⟩

@[simp] theorem acceptedTimes_nil : acceptedTimes [] = [] := rfl

@[simp] theorem acceptedTimes_cons_dialAccepted (t : Int) (l : List Ev) :
    acceptedTimes (.dialAccepted t :: l) = t :: acceptedTimes l := rfl

@[simp] theorem acceptedTimes_cons_teardownFrame (f : Frame) (l : List Ev) :
    acceptedTimes (.teardownFrame f :: l) = acceptedTimes l := rfl

@[simp] theorem acceptedTimes_cons_containerCleared (l : List Ev) :
    acceptedTimes (.containerCleared :: l) = acceptedTimes l := rfl

@[simp] theorem acceptedTimes_cons_frameCreated (a : String) (l : List Ev) :
    acceptedTimes (.frameCreated a :: l) = acceptedTimes l := rfl

@[simp] theorem acceptedTimes_cons_post (m : OutMsg) (l : List Ev) :
    acceptedTimes (.post m :: l) = acceptedTimes l := rfl

@[simp] theorem acceptedTimes_cons_postThrew (l : List Ev) :
    acceptedTimes (.postThrew :: l) = acceptedTimes l := rfl

@[simp] theorem acceptedTimes_cons_shortPress (l : List Ev) :
    acceptedTimes (.shortPress :: l) = acceptedTimes l := rfl

@[simp] theorem acceptedTimes_cons_longPressFired (d : Int) (l : List Ev) :
    acceptedTimes (.longPressFired d :: l) = acceptedTimes l := rfl

@[simp] theorem acceptedTimes_cons_returnedHome (l : List Ev) :
    acceptedTimes (.returnedHome :: l) = acceptedTimes l := rfl

@[simp] theorem acceptedTimes_cons_buttonSeen (v : String) (l : List Ev) :
    acceptedTimes (.buttonSeen v :: l) = acceptedTimes l := rfl

@[simp] theorem acceptedTimes_cons_recoveryTriggered (l : List Ev) :
    acceptedTimes (.recoveryTriggered :: l) = acceptedTimes l := rfl

@[simp] theorem acceptedTimes_append (a b : List Ev) :
    acceptedTimes (a ++ b) = acceptedTimes a ++ acceptedTimes b :=
  List.filterMap_append a b _

theorem postEvs_noDA (c : CurrentApp) (m : OutMsg) :
    acceptedTimes (postEvs c m).1 = [] := by
  unfold postEvs
  cases h : c.iframe with
  | none => simp []
  | some f => by_cases hw : f.hasWindow <;> simp [hw]

theorem applyZoneFocus_noDA (s : ShellState) :
    acceptedTimes (applyZoneFocus s).2.1 = [] := by
  unfold applyZoneFocus
  cases hz : s.focusZone <;>
    simp [hz, renderAppGrid] <;>
      (repeat' split) <;>
        first
        | rfl
        | exact postEvs_noDA _ _
        | simp [postEvs_noDA]

theorem teardown_noDA (s : ShellState) :
    (teardownCurrentApp s).1.lastDialTime = s.lastDialTime
    ∧ acceptedTimes (teardownCurrentApp s).2 = [] := by
  cases h : s.currentApp.iframe <;>
    simp [teardownCurrentApp, h]

theorem launchApp_noDA (s : ShellState) (a : String) :
    (launchApp s a).1.lastDialTime = s.lastDialTime
    ∧ acceptedTimes (launchApp s a).2 = [] := by
  unfold launchApp
  cases h : s.currentApp.iframe <;>
    simp [teardownCurrentApp, h, applyZoneFocus, postEvs, launchFrame,
          updateNavIcon]

theorem returnToHomeGrid_noDA (s : ShellState) :
    (returnToHomeGrid s).1.lastDialTime = s.lastDialTime
    ∧ acceptedTimes (returnToHomeGrid s).2 = [] := by
  unfold returnToHomeGrid teardownCurrentApp
  (repeat' split) <;> simp [renderAppGrid]

theorem handleBackButtonUp_noDA (s : ShellState) :
    (handleBackButtonUp s).1.lastDialTime = s.lastDialTime
    ∧ acceptedTimes (handleBackButtonUp s).2.1 = [] := by
  unfold handleBackButtonUp
  by_cases hl : s.isLongPress = true
  · simp [hl]
  · by_cases hid : s.currentApp.id.isSome
    · by_cases hroot : truthy s.currentApp.atRoot
      · simp only [hl, hid, hroot, if_true, if_false, Bool.not_eq_true,
          ite_true, ite_false, eq_self_iff_true]
        simp [hl, hid, hroot]
        exact ⟨(returnToHomeGrid_noDA _).1, (returnToHomeGrid_noDA _).2⟩
      · rcases hpe : postEvs s.currentApp OutMsg.cmdBack with ⟨evs, th⟩
        have hp : acceptedTimes evs = [] := by
          have := postEvs_noDA s.currentApp OutMsg.cmdBack
          rw [hpe] at this
          exact this
        cases th <;> simp [hl, hid, hroot, hpe, hp]
    · simp [hl, hid]

theorem fireBackTimer_noDA (s : ShellState) (d : Int) :
    (fireBackTimer s d).1.lastDialTime = s.lastDialTime
    ∧ acceptedTimes (fireBackTimer s d).2 = [] := by
  unfold fireBackTimer
  refine ⟨(returnToHomeGrid_noDA _).1, ?_⟩
  simp only [acceptedTimes_cons_longPressFired]
  exact (returnToHomeGrid_noDA _).2

theorem fireSynthUp_noDA (s : ShellState) :
    (fireSynthUp s).1.lastDialTime = s.lastDialTime
    ∧ acceptedTimes (fireSynthUp s).2 = [] := by
  unfold fireSynthUp
  have hr := handleBackButtonUp_noDA { s with synthUpTimer := none }
  exact ⟨hr.1, hr.2⟩

theorem fireOneDue_noDA (s : ShellState) (t : Int) :
    ∀ r, fireOneDue s t = some r →
      (r.1.lastDialTime = s.lastDialTime ∧ acceptedTimes r.2 = []) := by
  intro r h
  unfold fireOneDue at h
  (repeat' split at h)
  all_goals try cases h
  all_goals try (injection h with he; subst he)
  all_goals
    first
    | exact fireSynthUp_noDA s
    | exact fireBackTimer_noDA s _

theorem fireDueTimers_noDA (s : ShellState) (t : Int) :
    (fireDueTimers s t).1.lastDialTime = s.lastDialTime
    ∧ acceptedTimes (fireDueTimers s t).2 = [] := by
  unfold fireDueTimers
  rcases h1 : fireOneDue s t with _ | r1
  · simp []
  · have hr1 := fireOneDue_noDA s t r1 h1
    rcases h2 : fireOneDue r1.1 t with _ | r2
    · simp only [h1, h2]
      exact hr1
    · have hr2 := fireOneDue_noDA r1.1 t r2 h2
      simp only [h1, h2]
      exact ⟨by rw [hr2.1, hr1.1],
             by rw [acceptedTimes_append, hr1.2, hr2.2]; rfl⟩

theorem recoverFocus_noDA (s : ShellState) :
    (recoverFocus s).1.lastDialTime = s.lastDialTime
    ∧ acceptedTimes (recoverFocus s).2.1 = [] := by
  unfold recoverFocus
  (repeat' split) <;>
    simp [(applyZoneFocus_preserves _).2.2.2.1, applyZoneFocus_noDA]

theorem dialRouting_noDA (s : ShellState) (inp : HwInput) :
    (dialRouting s inp).1.lastDialTime = s.lastDialTime
    ∧ acceptedTimes (dialRouting s inp).2 = [] := by
  unfold dialRouting
  by_cases hu : lowerStr inp.value = "up" <;>
    by_cases hd : lowerStr inp.value = "down" <;>
      by_cases hr : lowerStr inp.value = "right" <;>
        cases hz : s.focusZone <;>
          simp [hu, hd, hr, hz, (applyZoneFocus_preserves _).2.2.2.1,
                applyZoneFocus_noDA, postEvs_noDA, renderAppGrid] <;>
            (repeat' split) <;>
              simp [(applyZoneFocus_preserves _).2.2.2.1, applyZoneFocus_noDA,
                    postEvs_noDA]

theorem buttonRouting_noDA (s : ShellState) (inp : HwInput) (now : Int) :
    (buttonRouting s inp now).1.lastDialTime = s.lastDialTime
    ∧ acceptedTimes (buttonRouting s inp now).2 = [] := by
  unfold buttonRouting
  dsimp only
  (repeat' split)
  all_goals
    first
    | exact ⟨rfl, rfl⟩
    | exact launchApp_noDA _ _
    | exact returnToHomeGrid_noDA _
    | exact handleBackButtonUp_noDA _
    | exact ⟨rfl, postEvs_noDA _ _⟩

theorem handleIframeMessage_noDA (s : ShellState) (m : IframeMsg) :
    (handleIframeMessage s m).1.lastDialTime = s.lastDialTime
    ∧ acceptedTimes (handleIframeMessage s m).2 = [] := by
  unfold handleIframeMessage
  (repeat' split)
  all_goals
    by_cases hz : s.focusZone = Zone.app <;>
      simp [hz, (applyZoneFocus_preserves _).2.2.2.1, applyZoneFocus_noDA,
            updateNavIcon, postEvs_noDA]

theorem onFrameLoaded_noDA (s : ShellState) :
    (onFrameLoaded s).1.lastDialTime = s.lastDialTime
    ∧ acceptedTimes (onFrameLoaded s).2 = [] := by
  unfold onFrameLoaded injectBridgeTheme
  (repeat' split) <;> simp [postEvs_noDA]

theorem setInteractionMode_lastDial (x : ShellState) (m : String) :
    (setInteractionMode x m).lastDialTime = x.lastDialTime := by
  unfold setInteractionMode
  split <;> rfl

theorem handleEvent_throttle (s : ShellState) (t : Int) (e : ShellEvent) :
    ((handleEvent s t e).1.lastDialTime = s.lastDialTime
      ∧ acceptedTimes (handleEvent s t e).2 = [])
    ∨ (¬ (t - s.lastDialTime < 25)
      ∧ (handleEvent s t e).1.lastDialTime = t
      ∧ acceptedTimes (handleEvent s t e).2 = [t]) := by
  unfold handleEvent
  have hft := fireDueTimers_noDA s t
  cases e with
  | hw inp =>
      dsimp only
      unfold handleHardwareInput
      cases hk : inp.kind with
      | dial =>
          dsimp only
          split
          · rename_i hthr
            rw [setInteractionMode_lastDial, hft.1] at hthr
            left
            constructor
            · simp [setInteractionMode_lastDial, hft.1]
            · simp [acceptedTimes_append, hft.2]
          · rename_i hthr
            rw [setInteractionMode_lastDial, hft.1] at hthr
            right
            refine ⟨hthr, ?_, ?_⟩
            · split
              · simp [(recoverFocus_noDA _).1, setInteractionMode_lastDial]
              · simp [(dialRouting_noDA _ _).1, (recoverFocus_noDA _).1,
                      setInteractionMode_lastDial]
            · split <;>
                simp [acceptedTimes_append, hft.2, (recoverFocus_noDA _).2,
                      (dialRouting_noDA _ _).2]
      | button =>
          left
          dsimp only
          have hb := buttonRouting_noDA
            (setInteractionMode (fireDueTimers s t).1 "dial") inp t
          constructor
          · simp [hb.1, setInteractionMode_lastDial, hft.1]
          · simp [acceptedTimes_append, hft.2, hb.2]
      | touch =>
          left
          exact ⟨by simp [setInteractionMode_lastDial, hft.1],
                 by simp [acceptedTimes_append, hft.2]⟩
  | iframeMsg m =>
      left
      have hb := handleIframeMessage_noDA (fireDueTimers s t).1 m
      exact ⟨by simp [hb.1, hft.1],
             by simp [acceptedTimes_append, hft.2, hb.2]⟩
  | frameLoaded =>
      left
      have hb := onFrameLoaded_noDA (fireDueTimers s t).1
      exact ⟨by simp [hb.1, hft.1],
             by simp [acceptedTimes_append, hft.2, hb.2]⟩
  | frameFailed =>
      left
      exact ⟨by simp [onFrameFailed, hft.1],
             by simp [onFrameFailed, acceptedTimes_append, hft.2]⟩
  | serverApps l =>
      left
      exact ⟨by simp [renderAppGrid, hft.1],
             by simp [acceptedTimes_append, hft.2]⟩

theorem chain_le_drop {a t : Int} {l : List Int}
    (h : List.Chain' (fun x y : Int => x ≤ y) (a :: t :: l)) :
    List.Chain' (fun x y : Int => x ≤ y) (a :: l) := by
  cases l with
  | nil => simp
  | cons b l2 =>
      have h1 : a ≤ t := (List.chain'_cons.mp h).1
      have h2 := (List.chain'_cons.mp h).2
      have h3 : t ≤ b := (List.chain'_cons.mp h2).1
      exact List.chain'_cons.mpr ⟨le_trans h1 h3, (List.chain'_cons.mp h2).2⟩

theorem runEvents_throttle (evts : List (Int × ShellEvent)) (s : ShellState)
    (hm : List.Chain' (fun a b : Int => a ≤ b)
      (s.lastDialTime :: evts.map Prod.fst)) :
    List.Pairwise (fun a b : Int => a + 25 ≤ b)
      (acceptedTimes (runEvents s evts).2)
    ∧ ∀ x ∈ acceptedTimes (runEvents s evts).2,
        s.lastDialTime + 25 ≤ x := by
  induction evts generalizing s with
  | nil => simp [runEvents]
  | cons p rest ih =>
      obtain ⟨t, e⟩ := p
      have hst : s.lastDialTime ≤ t := by
        have := (List.chain'_cons.mp hm).1
        simpa using this
      rcases handleEvent_throttle s t e with ⟨hl, ha⟩ | ⟨hacc, hl, ha⟩
      · have hm2 : List.Chain' (fun a b : Int => a ≤ b)
            ((handleEvent s t e).1.lastDialTime :: rest.map Prod.fst) := by
          rw [hl]
          exact chain_le_drop (by simpa using hm)
        have ihr := ih (handleEvent s t e).1 hm2
        rw [hl] at ihr
        constructor
        · simp only [runEvents, acceptedTimes_append, ha, List.nil_append]
          exact ihr.1
        · simp only [runEvents, acceptedTimes_append, ha, List.nil_append]
          exact ihr.2
      · have hm2 : List.Chain' (fun a b : Int => a ≤ b)
            ((handleEvent s t e).1.lastDialTime :: rest.map Prod.fst) := by
          rw [hl]
          have := (List.chain'_cons.mp hm).2
          simpa using this
        have ihr := ih (handleEvent s t e).1 hm2
        rw [hl] at ihr
        constructor
        · simp only [runEvents, acceptedTimes_append, ha,
            List.cons_append, List.nil_append]
          exact List.pairwise_cons.mpr
            ⟨fun b hb => ihr.2 b hb, ihr.1⟩
        · simp only [runEvents, acceptedTimes_append, ha,
            List.cons_append, List.nil_append]
          intro x hx
          rcases List.mem_cons.mp hx with hx | hx
          · subst hx
            omega
          · have := ihr.2 x hx
            omega

/-- C8.  First part: over any timestamped event sequence with
nondecreasing clock readings (starting at or after the stored throttle
clock), the timestamps of the dial events the throttle accepts are
pairwise at least 25 ms apart — rejected events do not reset the window,
because only an accepted event writes lastDialTime.  Second part: a
button event always reaches the button section (its entry marker is in
the trace) whatever the timing, so button and selection events are never
throttled. -/
theorem c8_dial_throttle_gap_buttons_unthrottled :
    (∀ (s : ShellState) (evts : List (Int × ShellEvent)),
      List.Chain' (fun a b : Int => a ≤ b)
        (s.lastDialTime :: evts.map Prod.fst) →
      List.Pairwise (fun a b : Int => a + 25 ≤ b)
        (acceptedTimes (runEvents s evts).2))
    ∧ (∀ (s : ShellState) (t : Int) (v : String),
        Ev.buttonSeen v ∈ (handleEvent s t (.hw ⟨.button, v⟩)).2) := by
  constructor
  · intro s evts hm
    exact (runEvents_throttle evts s hm).1
  · intro s t v
    simp [handleEvent, handleHardwareInput]

/-- Closed witness for C8: four dial ticks 1-29 ms apart and one button
event 5 ms after boot. -/
theorem c8_witness :
    List.Pairwise (fun a b : Int => a + 25 ≤ b)
      (acceptedTimes (runEvents demoState
        [(30, .hw ⟨.dial, "right"⟩), (31, .hw ⟨.dial, "right"⟩),
         (40, .hw ⟨.dial, "right"⟩), (60, .hw ⟨.dial, "right"⟩)]).2)
    ∧ Ev.buttonSeen "dial_click_down"
        ∈ (handleEvent demoState 5 (.hw ⟨.button, "dial_click_down"⟩)).2 :=
  ⟨c8_dial_throttle_gap_buttons_unthrottled.1 demoState _
     (by simp [demoState, List.chain'_cons]),
   c8_dial_throttle_gap_buttons_unthrottled.2 demoState 5 "dial_click_down"⟩

end STShell
